import Mathlib

/-!
Shallow embedding of the PhotoShare REST-API browser client (the page
scripts under `src/view/javascript` and the two unnamed page scripts).

Modelling conventions:
  * HTTP responses are represented by their status (a `Nat`) together with
    the already-parsed JSON body, passed as a typed value.
  * Every accessor becomes a pure function from (status, body) to an
    outcome record listing the navigation it performs (`window.location`
    assignments) and the value it returns to its caller (`Option`, with
    `none` for JavaScript `undefined`).
  * Local storage is an association list of key/value string pairs.
  * DOM output is a list of node records (tag, text content, class).
  * JavaScript numbers appearing as photo ratings are modelled as `ℚ`;
    `Math.round` becomes `⌊q + 1/2⌋` (round half toward +∞), and the
    coercion of `null` to `0` inside `i < Math.round(rating)` is explicit.
Several source files contain two script variants (separated in the repo by
a document marker); the suffixes `_images1` / `_images2` (older and newer
images page), `_image1` (image detail page), `_addImage` (add_image.js
second document), `_profile` (user_profile.js) and `_v1` / `_v2`
(signup.js first document vs login.js second document) name the variant a
definition is translated from.
-/

/-- The login page every guard and 401 branch navigates to. -/
def loginPage : String := "/templates/login.html"

/-- JavaScript truthiness of a possibly-absent string (`null`/`undefined`
and the empty string are falsy). -/
def jsTruthy : Option String → Bool
  | none => false
  | some s => s ≠ ""

/-- JavaScript `a || b` on possibly-absent strings. -/
def jsOr (a b : Option String) : Option String :=
  if jsTruthy a then a else b

/-- Assigning a possibly-undefined value to `textContent` stringifies it;
`undefined` renders as the literal string "undefined". -/
def jsToDisplay : Option String → String
  | some s => s
  | none => "undefined"

/-- `localStorage.getItem`: first binding of the key, or `null`. -/
def jsGetItem (storage : List (String × String)) (key : String) : Option String :=
  (storage.find? (fun kv => kv.1 = key)).map (fun kv => kv.2)

/-- A user record as returned by the users endpoints. -/
structure User where
  id : Nat
  username : String
  avatar : String
deriving DecidableEq

/-- A tag record as returned by the tags endpoint. -/
structure Tag where
  name : String
deriving DecidableEq

/-- A comment record as returned by the comments endpoint. -/
structure Comment where
  text : String
  created_at : String
deriving DecidableEq

/-- Outcome of one resource-accessor call: the navigation it performed (if
any) and the data it returned to its caller (`none` = `undefined`). -/
structure AccessorOutcome (α : Type) where
  navigation : Option String
  result : Option α
deriving DecidableEq

/-- getTags of tag.js: 200 returns the parsed list, 401 navigates to the
login page, anything else returns `undefined`. -/
def getTags_tag (status : Nat) (body : List Tag) : AccessorOutcome (List Tag) :=
  if status = 200 then { navigation := none, result := some body }
  else if status = 401 then { navigation := some loginPage, result := none }
  else { navigation := none, result := none }

/-- getUserById of the older images script (part_000, first document,
endpoint `/api/users/users_id/...`): only the 200 case is handled; there is
no 401 branch, so no navigation ever happens here. -/
def getUserById_images1 (status : Nat) (body : User) : AccessorOutcome User :=
  if status = 200 then { navigation := none, result := some body }
  else { navigation := none, result := none }

/-- getUserByUserName of the older images script: 200 only, no 401 branch. -/
def getUserByUserName_images1 (status : Nat) (body : User) : AccessorOutcome User :=
  if status = 200 then { navigation := none, result := some body }
  else { navigation := none, result := none }

/-- getImage of the older images script: on 200 it navigates to the image
detail page; there is no 401 branch and nothing is ever returned. -/
def getImage_images1 (status : Nat) (photoId : String) : AccessorOutcome Unit :=
  if status = 200 then
    { navigation := some ("/templates/image.html/" ++ photoId), result := none }
  else { navigation := none, result := none }

/-- getImages of the older images script: 200 renders the photo list (the
star rendering is modelled separately), 401 navigates to the login page;
the function never returns data. -/
def getImages_images1 (status : Nat) : AccessorOutcome Unit :=
  if status = 200 then { navigation := none, result := none }
  else if status = 401 then { navigation := some loginPage, result := none }
  else { navigation := none, result := none }

/-- getUserById of the newer images script (part_000, second document):
200 returns the record, 401 navigates to the login page. -/
def getUserById_images2 (status : Nat) (body : User) : AccessorOutcome User :=
  if status = 200 then { navigation := none, result := some body }
  else if status = 401 then { navigation := some loginPage, result := none }
  else { navigation := none, result := none }

/-- getUserByUserName of the newer images script: 200 returns, 401
navigates to the login page. -/
def getUserByUserName_images2 (status : Nat) (body : User) : AccessorOutcome User :=
  if status = 200 then { navigation := none, result := some body }
  else if status = 401 then { navigation := some loginPage, result := none }
  else { navigation := none, result := none }

/-- getImages of the newer images script: 200 renders, 401 navigates. -/
def getImages_images2 (status : Nat) : AccessorOutcome Unit :=
  if status = 200 then { navigation := none, result := none }
  else if status = 401 then { navigation := some loginPage, result := none }
  else { navigation := none, result := none }

/-- getUserById of the image detail page (part_001): 200 returns the
record, 401 navigates to the login page. -/
def getUserById_image1 (status : Nat) (body : User) : AccessorOutcome User :=
  if status = 200 then { navigation := none, result := some body }
  else if status = 401 then { navigation := some loginPage, result := none }
  else { navigation := none, result := none }

/-- getCurrentUser of the image detail page (part_001): 200 returns the
record, 401 navigates to the login page. -/
def getCurrentUser_image1 (status : Nat) (body : User) : AccessorOutcome User :=
  if status = 200 then { navigation := none, result := some body }
  else if status = 401 then { navigation := some loginPage, result := none }
  else { navigation := none, result := none }

/-- getImage of the image detail page (part_001): 200 renders the photo
card, 401 navigates to the login page; nothing is returned. -/
def getImage_image1 (status : Nat) : AccessorOutcome Unit :=
  if status = 200 then { navigation := none, result := none }
  else if status = 401 then { navigation := some loginPage, result := none }
  else { navigation := none, result := none }

/-- getUserById of add_image.js (second document): only the 200 case is
handled; no 401 branch, no navigation. -/
def getUserById_addImage (status : Nat) (body : User) : AccessorOutcome User :=
  if status = 200 then { navigation := none, result := some body }
  else { navigation := none, result := none }

/-- getCurrentUser of add_image.js (second document): only the 200 case is
handled; no 401 branch, no navigation. -/
def getCurrentUser_addImage (status : Nat) (body : User) : AccessorOutcome User :=
  if status = 200 then { navigation := none, result := some body }
  else { navigation := none, result := none }

/-- getImage of add_image.js (second document): 200 renders, 401 navigates
to the login page. -/
def getImage_addImage (status : Nat) : AccessorOutcome Unit :=
  if status = 200 then { navigation := none, result := none }
  else if status = 401 then { navigation := some loginPage, result := none }
  else { navigation := none, result := none }

/-- getComments of add_image.js (second document): 200 renders the comment
texts; only the 200 case is handled, so no 401 navigation. -/
def getComments_addImage (status : Nat) : AccessorOutcome Unit :=
  if status = 200 then { navigation := none, result := none }
  else { navigation := none, result := none }

/-- getInfoUser of user_profile.js: 200 renders the profile and returns
the record, 401 navigates to the login page. -/
def getInfoUser_profile (status : Nat) (body : User) : AccessorOutcome User :=
  if status = 200 then { navigation := none, result := some body }
  else if status = 401 then { navigation := some loginPage, result := none }
  else { navigation := none, result := none }

/-- getUserImages of user_profile.js: 200 renders the list, 401 navigates
to the login page; nothing is returned. -/
def getUserImages_profile (status : Nat) : AccessorOutcome Unit :=
  if status = 200 then { navigation := none, result := none }
  else if status = 401 then { navigation := some loginPage, result := none }
  else { navigation := none, result := none }

/-- JavaScript `Math.round` on the rational model of a JS number: round
half toward positive infinity. -/
def jsMathRound (q : ℚ) : ℤ := ⌊q + 1/2⌋

/-- Coercion applied to `rating` inside `i < Math.round(rating)`:
`null` coerces to the number 0. -/
def jsNumberOfRating : Option ℚ → ℚ
  | none => 0
  | some q => q

/-- Number of star glyphs appended by the loop
`for (let i = 0; i < Math.round(rating); i++)` shared by every renderer
variant (zero iterations when the rounded value is not positive). -/
def starCount (r : Option ℚ) : ℕ := (jsMathRound (jsNumberOfRating r)).toNat

/-- Stringification of the rating value inside the template literal of the
older images script; `null` prints as "null".  (For an actual number the
model prints the rational; the claims only inspect the `null` case.) -/
def jsStringOfRating : Option ℚ → String
  | none => "null"
  | some q => toString q

/-- Rendered rating block: star glyph count plus the text content of the
rating line. -/
structure RatingRender where
  stars : ℕ
  text : String
deriving DecidableEq

/-- Rating renderer of the image detail page, the user-profile page, the
newer images script and add_image.js: `round(rating)` stars, and the text
is built from `unrated = rating === null ? ' unrated' : ''`. -/
def renderRating_rating (r : Option ℚ) : RatingRender :=
  { stars := starCount r,
    text := "Rating: " ++ (if r = none then " unrated" else "") }

/-- Rating renderer of the older images script (reads `image.avg_rating`):
`round(rating)` stars, and the text interpolates the raw value, so a null
rating prints as "Rating: null" with no special label. -/
def renderRating_avg (r : Option ℚ) : RatingRender :=
  { stars := starCount r, text := "Rating: " ++ jsStringOfRating r }

/-- The text of a rating line carries the literal "unrated" label. -/
def hasUnratedLabel (t : String) : Prop :=
  "unrated".data <:+: t.data

instance (t : String) : Decidable (hasUnratedLabel t) := by
  unfold hasUnratedLabel; infer_instance

/-- A constructed DOM node: element tag, text content, class attribute. -/
structure DomNode where
  tag : String
  text : String
  cls : String
deriving DecidableEq

/-- Comment-list rendering of the image detail page (part_001): after the
container is cleared, an empty result appends one "No comments yet" div,
and the loop appends a time span and a text paragraph per comment, in
result order. -/
def renderComments (cs : List Comment) : List DomNode :=
  (if cs.isEmpty then [{ tag := "div", text := "No comments yet", cls := "mb-4" }] else [])
    ++ cs.flatMap (fun c =>
        [{ tag := "span", text := c.created_at, cls := "" },
         { tag := "p", text := c.text, cls := "" }])

/-- Texts of the comment paragraphs (the "p" nodes) of a rendered list. -/
def commentTexts (nodes : List DomNode) : List String :=
  nodes.filterMap (fun n => if n.tag = "p" then some n.text else none)

/-- Outcome of getComments on the image detail page: the container content
(`none` when the container was left untouched) and any navigation. -/
structure GetCommentsOutcome where
  container : Option (List DomNode)
  navigation : Option String
deriving DecidableEq

/-- getComments of the image detail page (part_001): 200 clears the
container and renders, 401 navigates to the login page. -/
def getComments_image1 (status : Nat) (cs : List Comment) : GetCommentsOutcome :=
  if status = 200 then { container := some (renderComments cs), navigation := none }
  else if status = 401 then { container := none, navigation := some loginPage }
  else { container := none, navigation := none }

/-- An observable top-level effect of a page script: a `window.location`
assignment or the issuing of an HTTP request. -/
inductive Effect where
  | navigate (url : String)
  | request (method : String) (url : String)
deriving DecidableEq

/-- The effect is the issuing of a network request. -/
def Effect.isRequest : Effect → Bool
  | .request _ _ => true
  | .navigate _ => false

/-- Top-level trace of the image detail page script (part_001): the
session guard assigns `window.location.href` when the stored token is
falsy but does not stop the script, after which `getImage(photo_id)` and
`getComments(photo_id)` both run and issue their fetches. -/
def imagePageScript (storage : List (String × String)) (photoId : String) : List Effect :=
  (if jsTruthy (jsGetItem storage "accessToken") then [] else [Effect.navigate loginPage])
    ++ [Effect.request "GET" ("/api/photos/" ++ photoId),
        Effect.request "GET" ("/api/comments/" ++ photoId)]

/-- Top-level trace of the newer images page script (part_000, second
document): same guard shape, then `getImages()` issues its fetch. -/
def imagesPageScript2 (storage : List (String × String)) : List Effect :=
  (if jsTruthy (jsGetItem storage "accessToken") then [] else [Effect.navigate loginPage])
    ++ [Effect.request "GET" "/api/photos/all/?limit=50"]

/-- Top-level trace of the older images page script (part_000, first
document): its guard reads the `refreshToken` key, then `getImages()`
issues its fetch. -/
def imagesPageScript1 (storage : List (String × String)) : List Effect :=
  (if jsTruthy (jsGetItem storage "refreshToken") then [] else [Effect.navigate loginPage])
    ++ [Effect.request "GET" "/api/photos"]

/-- Parsed body of the login response: the token pair on success, the
error fields on failure (absent fields are `none`). -/
structure LoginBody where
  access_token : String
  refresh_token : String
  detail : Option String
  message : Option String
deriving DecidableEq

/-- Client-observable outcome of one login form submission. -/
structure LoginOutcome where
  storedAccess : Option String
  storedRefresh : Option String
  navigation : Option String
  displayedText : Option String
  displayedColor : Option String
deriving DecidableEq

/-- Login submit handler of login.js (first document): 200 stores both
tokens under `accessToken` / `refreshToken` and navigates to the home
page; any other status displays `result.detail || result.message`, and a
401 additionally repeats the message in red.  No branch other than the
200 one navigates. -/
def loginSubmit (status : Nat) (body : LoginBody) : LoginOutcome :=
  if status = 200 then
    { storedAccess := some body.access_token,
      storedRefresh := some body.refresh_token,
      navigation := some "/templates/index.html",
      displayedText := none, displayedColor := none }
  else
    let base : LoginOutcome :=
      { storedAccess := none, storedRefresh := none, navigation := none,
        displayedText := some (jsToDisplay (jsOr body.detail body.message)),
        displayedColor := none }
    if status = 401 then { base with displayedColor := some "red" } else base

/-- Uppercase hexadecimal digit for a value below 16. -/
def hexDigitChar (n : Nat) : Char :=
  if n < 10 then Char.ofNat (48 + n) else Char.ofNat (55 + n)

/-- Percent-encoding of one byte. -/
def percentByte (b : Nat) : String :=
  "%" ++ String.mk [hexDigitChar (b / 16 % 16), hexDigitChar (b % 16)]

/-- UTF-8 bytes of a Unicode code point. -/
def utf8Bytes (n : Nat) : List Nat :=
  if n < 128 then [n]
  else if n < 2048 then [192 + n / 64, 128 + n % 64]
  else if n < 65536 then [224 + n / 4096, 128 + n / 64 % 64, 128 + n % 64]
  else [240 + n / 262144, 128 + n / 4096 % 64, 128 + n / 64 % 64, 128 + n % 64]

/-- Characters `encodeURIComponent` leaves unescaped. -/
def isUnescapedUri (c : Char) : Bool :=
  c.isAlphanum || c = '-' || c = '_' || c = '.' || c = '!' || c = '~' ||
    c = '*' || c = '\'' || c = '(' || c = ')'

/-- JavaScript `encodeURIComponent`. -/
def encodeURIComponent (s : String) : String :=
  s.data.foldl (fun acc c =>
    acc ++ (if isUnescapedUri c then String.mk [c]
            else String.join ((utf8Bytes c.toNat).map percentByte))) ""

/-- Activation message of the newer signup handler (login.js, second
document). -/
def activationMessage : String := "Please, check your email to activate your account"

/-- Conflict message shared by both signup handlers. -/
def existsMessage : String := "An account with the same email address or username already exists"

/-- One entry of a validation `detail` array in a signup error body. -/
structure DetailItem where
  msg : String
deriving DecidableEq

/-- Parsed body of the signup response (absent fields are `none`). -/
structure SignupBody where
  detail : Option (List DetailItem)
  message : Option String
  first_name : String
  last_name : String
deriving DecidableEq

/-- A thrown JavaScript error. -/
inductive JsError where
  | typeError (msg : String)
deriving DecidableEq

/-- Evaluation of `result.detail[0].msg || result.message` in the newer
signup handler: indexing an absent `detail` array, or taking `.msg` of an
absent element, throws a TypeError. -/
def signupDetailDisplay (body : SignupBody) : Except JsError String :=
  match body.detail with
  | none => .error (.typeError "Cannot read properties of undefined (reading 0)")
  | some items =>
    match items.head? with
    | none => .error (.typeError "Cannot read properties of undefined (reading msg)")
    | some item => .ok (jsToDisplay (jsOr (some item.msg) body.message))

/-- Outcome of one signup form submission: the navigation performed, any
inline display attempt (which may itself throw), and — for the older
handler — the congratulations message that is computed and then never
attached to the navigation. -/
structure SignupOutcome where
  navigation : Option String
  display : Option (Except JsError String)
  unusedMessage : Option String

/-- Signup submit handler of login.js (second document): 201 navigates to
the login page carrying the activation message; 409 navigates to the
signup page carrying the URL-encoded conflict message; every non-409
status additionally runs the `else` display of
`result.detail[0].msg || result.message`. -/
def signupSubmit_v2 (status : Nat) (body : SignupBody) : SignupOutcome :=
  { navigation :=
      if status = 201 then some ("/templates/login.html/?message=" ++ activationMessage)
      else if status = 409 then
        some ("/templates/signup.html?message=" ++ encodeURIComponent existsMessage)
      else none,
    display := if status = 409 then none else some (signupDetailDisplay body),
    unusedMessage := none }

/-- Signup submit handler of signup.js (first document): 201 computes an
encoded congratulations message but navigates to the images page without
it; 409 navigates to the static signup page carrying the URL-encoded
conflict message.  No other status does anything. -/
def signupSubmit_v1 (status : Nat) (body : SignupBody) : SignupOutcome :=
  if status = 201 then
    { navigation := some "/templates/images.html",
      display := none,
      unusedMessage := some (encodeURIComponent
        ("Congratulations, " ++ body.first_name ++ " " ++ body.last_name ++
         "!\nYour registration was successful.\nPlease verify your email address.")) }
  else if status = 409 then
    { navigation := some ("/static/client_rest/signup.html?message=" ++
        encodeURIComponent existsMessage),
      display := none, unusedMessage := none }
  else { navigation := none, display := none, unusedMessage := none }

/-- The URL is the login page (possibly with a trailing path or query). -/
def isLoginPath (url : String) : Bool :=
  url.data.take 21 = "/templates/login.html".data

/-- Client-observable outcome of a click on the logout button. -/
structure LogoutOutcome where
  navigation : Option String
  storage : List (String × String)
  consoleLogged : Bool
deriving DecidableEq

/-- Logout handler of logout.js: inside its `try` block it awaits the call
and the body parse, then navigates to the logout page and clears the whole
local storage; if the call (or the parse) fails, the `catch` logs to the
developer console and touches nothing else.  `resolved` states whether the
guarded block ran to completion. -/
def logoutRun (storage : List (String × String)) (resolved : Bool) : LogoutOutcome :=
  if resolved then
    { navigation := some "/templates/logout.html", storage := [], consoleLogged := false }
  else
    { navigation := none, storage := storage, consoleLogged := true }

/-- Every network-calling flow of the client, one constructor per handler
or accessor family in the source. -/
inductive ClientFlow where
  | loginSubmitF | signupSubmitF | logoutF | getTagsF | getUserByIdF
  | getUserByUserNameF | getCurrentUserF | getImageF | getImagesF
  | getCommentsF | commentSubmitF | uploadPhotoF | ratingSubmitF
deriving DecidableEq

/-- Which flows wrap their network call in a try/catch: in the source only
logout.js does; every other call site lets a rejected fetch propagate. -/
def catchesNetworkFailure : ClientFlow → Bool
  | .logoutF => true
  | _ => false

/-- Message-banner renderer of the login page (login.js, first document),
over the character-list model of the message: when the `message` query
parameter is truthy, the container is cleared and the handler appends one
paragraph per element of `message.split("\n")`, in order; otherwise
nothing is rendered.  The result lists the text of each appended
paragraph. -/
def renderLoginBanner (msg : Option (List Char)) : List (List Char) :=
  match msg with
  | none => []
  | some m =>
    if m.isEmpty then []
    else (m.splitOn '\n').foldl (fun acc line => acc ++ [line]) []

/-- JSON body of the comment POST. -/
structure CommentBody where
  text : String
  photo_id : String
deriving DecidableEq

/-- An HTTP request issued by the comment submit handler. -/
structure CommentRequest where
  method : String
  url : String
  contentType : String
  body : CommentBody
deriving DecidableEq

/-- Request built by the comment submit handler of the image detail page
(part_001) once the current user is known. -/
def mkCommentRequest (base : String) (u : User) (commentText pid : String) : CommentRequest :=
  { method := "POST",
    url := base ++ "/api/comments/?user_id=" ++ toString u.id,
    contentType := "application/json",
    body := { text := commentText, photo_id := pid } }

/-- Request-building phase of the comment submit handler: the URL template
dereferences `user.id`, so when `getCurrentUser` returned no data the
handler throws a TypeError before `fetch` is reached and no request is
issued. -/
def commentSubmitRequest (base : String) (userRes : Option User)
    (commentText pid : String) : Except JsError CommentRequest :=
  match userRes with
  | none => .error (.typeError "Cannot read properties of undefined (reading id)")
  | some u => .ok (mkCommentRequest base u commentText pid)

/-- Response phase of the comment submit handler (part_001): 200 sets the
success message element, 401 navigates to the login page. -/
structure CommentSubmitOutcome where
  successText : Option String
  successClass : Option String
  navigation : Option String
deriving DecidableEq

/-- Status handling after the comment POST resolves (part_001). -/
def commentSubmitAfter (status : Nat) : CommentSubmitOutcome :=
  if status = 200 then
    { successText := some "Comment was added successfully",
      successClass := some "text-success", navigation := none }
  else if status = 401 then
    { successText := none, successClass := none, navigation := some loginPage }
  else { successText := none, successClass := none, navigation := none }

theorem foldl_push_eq_append {β : Type} (l acc : List β) :
    l.foldl (fun a x => a ++ [x]) acc = acc ++ l := by
  induction l generalizing acc with
  | nil => simp
  | cons x xs ih => simp [List.foldl_cons, ih]

theorem commentTexts_flatMap (cs : List Comment) :
    commentTexts (cs.flatMap (fun c =>
      [{ tag := "span", text := c.created_at, cls := "" },
       { tag := "p", text := c.text, cls := "" }])) = cs.map Comment.text := by
  induction cs with
  | nil => rfl
  | cons c cs ih =>
    simp only [List.flatMap_cons, commentTexts, List.filterMap_append] at ih ⊢
    simp only [List.filterMap_cons]
    simp [ih]

/-- C1: as stated the claim fails — `getUserById` of the older images
script (the variant the claim cites at part_000 lines 30–47) has no 401
branch, so a 401 response produces no navigation at all (it does return
`undefined`). -/
theorem C1_counterexample :
    (getUserById_images1 401 { id := 7, username := "ann", avatar := "a.png" }).navigation
        ≠ some loginPage ∧
    (getUserById_images1 401 { id := 7, username := "ann", avatar := "a.png" }).navigation = none ∧
    (getUserById_images1 401 { id := 7, username := "ann", avatar := "a.png" }).result = none := by
  decide

/-- C1 (amended): on a 401 response every accessor returns no data; the
accessors of tag.js, the newer images script, the image detail page,
add_image's getImage and the user-profile page navigate to the login page,
while getUserById/getUserByUserName/getImage of the older images script
and getUserById/getCurrentUser/getComments of add_image.js perform no
navigation. -/
theorem C1_amended (u : User) (ts : List Tag) (pid : String) :
    ((getTags_tag 401 ts).navigation = some loginPage ∧ (getTags_tag 401 ts).result = none) ∧
    ((getUserById_images2 401 u).navigation = some loginPage ∧
      (getUserById_images2 401 u).result = none) ∧
    ((getUserByUserName_images2 401 u).navigation = some loginPage ∧
      (getUserByUserName_images2 401 u).result = none) ∧
    (getImages_images2 401).navigation = some loginPage ∧
    ((getUserById_image1 401 u).navigation = some loginPage ∧
      (getUserById_image1 401 u).result = none) ∧
    ((getCurrentUser_image1 401 u).navigation = some loginPage ∧
      (getCurrentUser_image1 401 u).result = none) ∧
    (getImage_image1 401).navigation = some loginPage ∧
    (getComments_image1 401 []).navigation = some loginPage ∧
    (getImage_addImage 401).navigation = some loginPage ∧
    ((getInfoUser_profile 401 u).navigation = some loginPage ∧
      (getInfoUser_profile 401 u).result = none) ∧
    (getUserImages_profile 401).navigation = some loginPage ∧
    (getImages_images1 401).navigation = some loginPage ∧
    ((getUserById_images1 401 u).navigation = none ∧ (getUserById_images1 401 u).result = none) ∧
    ((getUserByUserName_images1 401 u).navigation = none ∧
      (getUserByUserName_images1 401 u).result = none) ∧
    (getImage_images1 401 pid).navigation = none ∧
    ((getUserById_addImage 401 u).navigation = none ∧ (getUserById_addImage 401 u).result = none) ∧
    ((getCurrentUser_addImage 401 u).navigation = none ∧
      (getCurrentUser_addImage 401 u).result = none) ∧
    (getComments_addImage 401).navigation = none := by
  simp [getTags_tag, getUserById_images2, getUserByUserName_images2, getImages_images2,
    getUserById_image1, getCurrentUser_image1, getImage_image1, getComments_image1,
    getImage_addImage, getInfoUser_profile, getUserImages_profile, getImages_images1,
    getUserById_images1, getUserByUserName_images1, getImage_images1,
    getUserById_addImage, getCurrentUser_addImage, getComments_addImage]

/-- C2: as stated the claim fails — with an empty local storage the image
detail page script assigns the login location but keeps running, so the
fetches of getImage and getComments are still issued. -/
theorem C2_counterexample :
    imagePageScript [] "1" ≠ [Effect.navigate loginPage] ∧
    Effect.request "GET" "/api/photos/1" ∈ imagePageScript [] "1" ∧
    Effect.request "GET" "/api/comments/1" ∈ imagePageScript [] "1" := by
  decide

/-- C2 (amended): the session guard assigns the login location exactly
when the stored token is falsy (reading `refreshToken` in the older images
script, `accessToken` elsewhere), but the guard does not stop the script:
the top-level accessor fetches are issued in every case. -/
theorem C2_amended (storage : List (String × String)) (pid : String) :
    (Effect.navigate loginPage ∈ imagePageScript storage pid ↔
      jsTruthy (jsGetItem storage "accessToken") = false) ∧
    Effect.request "GET" ("/api/photos/" ++ pid) ∈ imagePageScript storage pid ∧
    Effect.request "GET" ("/api/comments/" ++ pid) ∈ imagePageScript storage pid ∧
    (Effect.navigate loginPage ∈ imagesPageScript1 storage ↔
      jsTruthy (jsGetItem storage "refreshToken") = false) ∧
    Effect.request "GET" "/api/photos" ∈ imagesPageScript1 storage ∧
    (Effect.navigate loginPage ∈ imagesPageScript2 storage ↔
      jsTruthy (jsGetItem storage "accessToken") = false) ∧
    Effect.request "GET" "/api/photos/all/?limit=50" ∈ imagesPageScript2 storage := by
  cases h : jsTruthy (jsGetItem storage "accessToken") <;>
    cases h' : jsTruthy (jsGetItem storage "refreshToken") <;>
      simp [imagePageScript, imagesPageScript1, imagesPageScript2, h, h']

/-- C3: as stated the claim fails — the star renderer of the older images
script shows zero stars for a null rating but prints "Rating: null"
instead of the literal "unrated" label. -/
theorem C3_counterexample :
    (renderRating_avg none).text = "Rating: null" ∧
    ¬ hasUnratedLabel (renderRating_avg none).text ∧
    (renderRating_avg none).stars = 0 := by
  refine ⟨rfl, by decide, ?_⟩
  show starCount none = 0
  norm_num [starCount, jsMathRound, jsNumberOfRating]

/-- C3 (amended): every renderer draws `max (round rating) 0` stars (so
`round rating` on `[0,5]`, e.g. 4.6 → 5 and 3.4 → 3, and zero stars for a
null rating); the newer renderers print the literal "unrated" label for a
null rating, but the older images renderer prints the raw null value with
no "unrated" label. -/
theorem C3_amended (q : ℚ) :
    ((starCount (some q) : ℤ) = max ⌊q + 1/2⌋ 0) ∧
    starCount (some (23/5 : ℚ)) = 5 ∧
    starCount (some (17/5 : ℚ)) = 3 ∧
    starCount none = 0 ∧
    (renderRating_rating none).text = "Rating:  unrated" ∧
    hasUnratedLabel (renderRating_rating none).text ∧
    (renderRating_rating none).stars = 0 ∧
    (renderRating_avg none).text = "Rating: null" ∧
    ¬ hasUnratedLabel (renderRating_avg none).text ∧
    (renderRating_rating (some q)).stars = starCount (some q) := by
  refine ⟨?_, ?_, ?_, ?_, rfl, by decide, ?_, rfl, by decide, rfl⟩
  · simp [starCount, jsMathRound, jsNumberOfRating, Int.toNat_eq_max]
  · norm_num [starCount, jsMathRound, jsNumberOfRating]
    rfl
  · norm_num [starCount, jsMathRound, jsNumberOfRating]
    rfl
  · norm_num [starCount, jsMathRound, jsNumberOfRating]
  · show starCount none = 0
    norm_num [starCount, jsMathRound, jsNumberOfRating]

/-- C4: a 200 login response stores both tokens (under `accessToken` and
`refreshToken`) and navigates to the home page; a 401 response displays
`detail || message` (in red) and performs no navigation and no storage
write. -/
theorem C4_loginSubmit (body : LoginBody) :
    loginSubmit 200 body =
      { storedAccess := some body.access_token, storedRefresh := some body.refresh_token,
        navigation := some "/templates/index.html",
        displayedText := none, displayedColor := none } ∧
    (loginSubmit 401 body).displayedText = some (jsToDisplay (jsOr body.detail body.message)) ∧
    (loginSubmit 401 body).displayedColor = some "red" ∧
    (loginSubmit 401 body).navigation = none ∧
    (loginSubmit 401 body).storedAccess = none ∧
    (loginSubmit 401 body).storedRefresh = none := by
  simp [loginSubmit]

/-- C5: as stated the claim fails — the signup handler of signup.js (the
older variant the claim cites) navigates on 201 to the images page, not to
the login page, and attaches no message to that navigation. -/
theorem C5_counterexample :
    (signupSubmit_v1 201
      { detail := none, message := none, first_name := "Ann", last_name := "Lee" }).navigation
        = some "/templates/images.html" ∧
    isLoginPath "/templates/images.html" = false := by
  exact ⟨rfl, by decide⟩

/-- C5 (amended): both handlers navigate on 409 to a signup page carrying
the URL-encoded account-exists message; the newer handler (login.js,
second document) navigates on 201 to the login page carrying the
activation message, while the older handler (signup.js) navigates on 201
to the images page with no message. -/
theorem C5_amended (body : SignupBody) :
    (signupSubmit_v2 201 body).navigation =
      some ("/templates/login.html/?message=" ++ activationMessage) ∧
    (signupSubmit_v2 409 body).navigation =
      some ("/templates/signup.html?message=" ++ encodeURIComponent existsMessage) ∧
    (signupSubmit_v1 409 body).navigation =
      some ("/static/client_rest/signup.html?message=" ++ encodeURIComponent existsMessage) ∧
    (signupSubmit_v1 201 body).navigation = some "/templates/images.html" ∧
    encodeURIComponent existsMessage =
      "An%20account%20with%20the%20same%20email%20address%20or%20username%20already%20exists" := by
  exact ⟨rfl, rfl, rfl, rfl, by decide⟩

/-- C6: with a known current user the comment submit handler issues
`POST {base}/api/comments/?user_id={u.id}` with JSON body
`(text, photo_id)`; a 200 response sets the success message; and the
rendered comment list keeps the fetched order (the paragraph texts are
exactly the comment texts in result order). -/
theorem C6_commentSubmit (base : String) (u : User) (t pid : String) (cs : List Comment) :
    commentSubmitRequest base (some u) t pid =
      Except.ok { method := "POST",
                  url := base ++ "/api/comments/?user_id=" ++ toString u.id,
                  contentType := "application/json",
                  body := { text := t, photo_id := pid } } ∧
    (commentSubmitAfter 200).successText = some "Comment was added successfully" ∧
    (commentSubmitAfter 200).successClass = some "text-success" ∧
    (commentSubmitAfter 200).navigation = none ∧
    commentTexts (renderComments cs) = cs.map Comment.text := by
  refine ⟨rfl, rfl, rfl, rfl, ?_⟩
  cases cs with
  | nil => rfl
  | cons c cs' => simpa [renderComments] using commentTexts_flatMap (c :: cs')

/-- C7: when the guarded logout block runs to completion the client
navigates to the logout page and clears the whole local storage (so both
token keys are gone); when the call fails, only the console log happens
and storage is untouched — and logout is the only flow in the client that
catches a network failure. -/
theorem C7_logout (st : List (String × String)) :
    (logoutRun st true).navigation = some "/templates/logout.html" ∧
    (logoutRun st true).storage = [] ∧
    jsGetItem (logoutRun st true).storage "accessToken" = none ∧
    jsGetItem (logoutRun st true).storage "refreshToken" = none ∧
    (logoutRun st false).storage = st ∧
    (logoutRun st false).consoleLogged = true ∧
    (logoutRun st false).navigation = none ∧
    (∀ f : ClientFlow, catchesNetworkFailure f = true ↔ f = ClientFlow.logoutF) := by
  refine ⟨rfl, rfl, rfl, rfl, rfl, rfl, rfl, ?_⟩
  intro f
  cases f <;> simp [catchesNetworkFailure]

/-- C8: for a non-empty message query parameter the login-page banner
renders one paragraph per newline-separated line, in order, and
re-joining the rendered lines with a newline recovers the message
verbatim. -/
theorem C8_loginBanner (m : List Char) (h : m ≠ []) :
    renderLoginBanner (some m) = m.splitOn '\n' ∧
    (renderLoginBanner (some m)).length = (m.splitOn '\n').length ∧
    ['\n'].intercalate (renderLoginBanner (some m)) = m := by
  have h1 : renderLoginBanner (some m) = m.splitOn '\n' := by
    simp [renderLoginBanner, h, foldl_push_eq_append]
  exact ⟨h1, by rw [h1], by rw [h1]; exact List.intercalate_splitOn m '\n'⟩

/-- C8 witness: the banner on the concrete two-line message "a\nb". -/
theorem C8_loginBanner_witness :
    (['a', '\n', 'b'] : List Char) ≠ [] ∧
    (renderLoginBanner (some ['a', '\n', 'b']) = ['a', '\n', 'b'].splitOn '\n' ∧
     (renderLoginBanner (some ['a', '\n', 'b'])).length =
       (['a', '\n', 'b'].splitOn '\n').length ∧
     ['\n'].intercalate (renderLoginBanner (some ['a', '\n', 'b'])) = ['a', '\n', 'b']) :=
  ⟨by decide, C8_loginBanner ['a', '\n', 'b'] (by decide)⟩

/-- C9: a 200 comments response with an empty list clears the container
and renders exactly one element, a div with the literal text
"No comments yet". -/
theorem C9_noCommentsYet :
    getComments_image1 200 [] =
      { container := some [{ tag := "div", text := "No comments yet", cls := "mb-4" }],
        navigation := none } ∧
    ((getComments_image1 200 []).container.getD []).length = 1 := by
  decide

/-- C10: when the current-user fetch comes back with any non-200 status,
getCurrentUser yields no data and the comment submit handler throws on
`user.id` before any POST request exists; conversely a comment POST can
only be built when the user value is present. -/
theorem C10_commentGuard (status : Nat) (body : User) (base t pid : String)
    (h : status ≠ 200) :
    (getCurrentUser_image1 status body).result = none ∧
    (∀ req, commentSubmitRequest base (getCurrentUser_image1 status body).result t pid ≠
      Except.ok req) ∧
    (∀ (userRes : Option User) req,
      commentSubmitRequest base userRes t pid = Except.ok req → userRes.isSome = true) := by
  have hres : (getCurrentUser_image1 status body).result = none := by
    by_cases h4 : status = 401 <;> simp [getCurrentUser_image1, h, h4]
  refine ⟨hres, ?_, ?_⟩
  · intro req
    rw [hres]
    simp [commentSubmitRequest]
  · intro userRes req hok
    cases userRes with
    | none => simp [commentSubmitRequest] at hok
    | some u => rfl

/-- C10 witness: the guard at the concrete status 401. -/
theorem C10_commentGuard_witness :
    ((401 : Nat) ≠ 200) ∧
    ((getCurrentUser_image1 401 { id := 7, username := "ann", avatar := "a.png" }).result
        = none ∧
     (∀ req, commentSubmitRequest ""
        (getCurrentUser_image1 401 { id := 7, username := "ann", avatar := "a.png" }).result
        "abc" "42" ≠ Except.ok req) ∧
     (∀ (userRes : Option User) req,
        commentSubmitRequest "" userRes "abc" "42" = Except.ok req → userRes.isSome = true)) :=
  ⟨by decide,
   C10_commentGuard 401 { id := 7, username := "ann", avatar := "a.png" } "" "abc" "42"
     (by decide)⟩
